import Mathlib

/-!
Shallow embedding of `gatt-cts-server.py` (a BlueZ GATT Current Time Service
peripheral) and proofs about it.

The embedding mirrors the source file:
 - `fracByte` models the fractional-second byte computation
   `int((dt.microsecond * 1e-6) * 256)` at IEEE-754 binary64 precision;
 - `currentTimeBytes` models `CurrentTimeCharacteristic.current_time_bytes`;
 - `localTimeInformationBytes` models
   `LocalTimeInformationCharacteristic.local_time_information_bytes`;
 - the `ServiceNode` / `CharacteristicNode` / `DescriptorNode` structures and
   the path / property functions model the GATT object tree and its
   property-exposition methods (`GetManagedObjects`, `GetAll`, `get_path`);
 - the default RPC methods and the `notifying` state machine model
   `Characteristic` / `Descriptor` defaults and
   `CurrentTimeCharacteristic.StartNotify` / `StopNotify`;
 - `findAdapter` / `serverInit` / `serverRun` model `Server`.
-/

/-! ## Python exception model

The source declares five DBus error classes (`InvalidArgs`, `NotSupported`,
`NotPermitted`, `InvalidValueLength`, `Failed`).  Besides these, plain Python
exceptions can escape: a `KeyError` from `options['device']`, an
`AttributeError` from reading an attribute that was never assigned, and an
`OverflowError` from `int.to_bytes` on an out-of-range value. -/

inductive DBusErrorKind where
  | invalidArgs
  | notSupported
  | notPermitted
  | invalidValueLength
  | failed
deriving DecidableEq, Repr

inductive PyExc where
  | dbusError (kind : DBusErrorKind)
  | keyError (key : String)
  | attributeError (attr : String)
  | overflowError
deriving DecidableEq, Repr

/-! ## Fractional-second byte

Line 300 of the source computes `int((dt.microsecond * 1e-6) * 256)` in
IEEE-754 binary64 arithmetic.  The literal `1e-6` denotes the binary64 value
4722366482869645 * 2 ^ (-72) (the significand is obtained by rounding
2 ^ 72 / 10 ^ 6 = 4722366482869645.213696 to the nearest integer).  For
`micro` in 1 .. 999999 the exact product `micro * 1e-6` equals
`N * 2 ^ (-72)` with `N = micro * 4722366482869645` in [2 ^ 52, 2 ^ 72), and
the hardware rounds it to the nearest binary64 (53 significand bits, ties to
even), i.e. to `roundHalfEven N s * 2 ^ (-72)` where `s` is the number of
bits of `N` beyond 53 (`binadeShift N`).  The multiplication by 256 is exact
(scaling by a power of two, no overflow), and `int` truncates toward zero,
which on a nonnegative value is division by 2 ^ 64 at scale 2 ^ (-72). -/

/-- Number of low-order bits dropped when rounding a positive integer `N`
with at most 72 bits to a 53-bit significand: the count of exponents
`53 + i` (for `i < 19`) with `2 ^ (53 + i) ≤ N`. -/
def binadeShift (N : ℕ) : ℕ :=
  (List.range 19).countP (fun i => decide (2 ^ (53 + i) ≤ N))

/-- Round `N` to a multiple of `2 ^ s`, to nearest, ties to even quotient
(IEEE-754 default rounding applied to the trailing `s` bits). -/
def roundHalfEven (N s : ℕ) : ℕ :=
  if s = 0 then N
  else if N % 2 ^ s < 2 ^ (s - 1) then N / 2 ^ s * 2 ^ s
  else if 2 ^ (s - 1) < N % 2 ^ s then (N / 2 ^ s + 1) * 2 ^ s
  else if N / 2 ^ s % 2 = 0 then N / 2 ^ s * 2 ^ s
  else (N / 2 ^ s + 1) * 2 ^ s

/-- Models `int((micro * 1e-6) * 256)` from line 300 of the source, exact at
IEEE-754 binary64 semantics for `micro < 10 ^ 6` (the range of
`datetime.microsecond`). -/
def fracByte (micro : ℕ) : ℕ :=
  if micro = 0 then 0
  else
    roundHalfEven (micro * 4722366482869645)
      (binadeShift (micro * 4722366482869645)) / 18446744073709551616

lemma binadeShift_le (N : ℕ) : binadeShift N ≤ 19 := by
  calc binadeShift N ≤ (List.range 19).length := List.countP_le_length _
    _ = 19 := List.length_range 19

lemma roundHalfEven_le (N s : ℕ) : roundHalfEven N s ≤ N + 2 ^ s := by
  unfold roundHalfEven
  by_cases hs : s = 0
  · simp [hs]
  · have hdm : N / 2 ^ s * 2 ^ s ≤ N := Nat.div_mul_le_self N (2 ^ s)
    have hsucc : (N / 2 ^ s + 1) * 2 ^ s ≤ N + 2 ^ s := by
      calc (N / 2 ^ s + 1) * 2 ^ s = N / 2 ^ s * 2 ^ s + 2 ^ s := by ring
        _ ≤ N + 2 ^ s := Nat.add_le_add_right hdm _
    rw [if_neg hs]
    split_ifs
    · exact le_trans hdm (Nat.le_add_right N _)
    · exact hsucc
    · exact le_trans hdm (Nat.le_add_right N _)
    · exact hsucc

lemma le_roundHalfEven (N s : ℕ) : N ≤ roundHalfEven N s + 2 ^ s := by
  unfold roundHalfEven
  by_cases hs : s = 0
  · simp [hs]
  · have hpos : 0 < 2 ^ s := Nat.pos_pow_of_pos s (by norm_num)
    have hbase : N ≤ N / 2 ^ s * 2 ^ s + 2 ^ s := by
      have h1 : 2 ^ s * (N / 2 ^ s) + N % 2 ^ s = N := Nat.div_add_mod N (2 ^ s)
      have h2 : N % 2 ^ s < 2 ^ s := Nat.mod_lt N hpos
      calc N = 2 ^ s * (N / 2 ^ s) + N % 2 ^ s := h1.symm
        _ ≤ 2 ^ s * (N / 2 ^ s) + 2 ^ s := Nat.add_le_add_left (le_of_lt h2) _
        _ = N / 2 ^ s * 2 ^ s + 2 ^ s := by ring
    have hsucc : N ≤ (N / 2 ^ s + 1) * 2 ^ s + 2 ^ s := by
      calc N ≤ N / 2 ^ s * 2 ^ s + 2 ^ s := hbase
        _ ≤ (N / 2 ^ s + 1) * 2 ^ s + 2 ^ s := by
            exact Nat.add_le_add_right (Nat.mul_le_mul_right _ (Nat.le_succ _)) _
    rw [if_neg hs]
    split_ifs
    · exact hbase
    · exact hsucc
    · exact hbase
    · exact hsucc

/-- On multiples of 15625 (the microsecond values whose exact fractional
byte lands on an integer boundary) the binary64 computation still produces
the exact value; checked by evaluation of the 64 cases. -/
lemma fracByte_mul_15625 : ∀ k, k < 64 → fracByte (15625 * k) = 4 * k := by decide

lemma fracByte_eq (m : ℕ) (hm : m < 1000000) : fracByte m = 256 * m / 1000000 := by
  by_cases h0 : m = 0
  · simp [h0, fracByte]
  by_cases hdvd : m % 15625 = 0
  · have hk : m / 15625 < 64 := by omega
    have hmk : 15625 * (m / 15625) = m := by omega
    have := fracByte_mul_15625 (m / 15625) hk
    rw [hmk] at this
    rw [this]
    omega
  · -- non-boundary case: the rounded product stays within 2 ^ 19 of the
    -- exact scaled value, and the boundary is at least 2 ^ 70 / 10 ^ 6 away
    have hfb : fracByte m =
        roundHalfEven (m * 4722366482869645)
          (binadeShift (m * 4722366482869645)) / 18446744073709551616 := by
      rw [fracByte, if_neg h0]
    set N := m * 4722366482869645 with hN
    set s := binadeShift N with hs
    set A := roundHalfEven N s with hA
    have hs19 : s ≤ 19 := binadeShift_le N
    have hpow : (2 : ℕ) ^ s ≤ 524288 := by
      calc (2 : ℕ) ^ s ≤ 2 ^ 19 := Nat.pow_le_pow_right (by norm_num) hs19
        _ = 524288 := by norm_num
    have hA1 : A ≤ N + 524288 :=
      le_trans (roundHalfEven_le N s) (Nat.add_le_add_left hpow N)
    have hA2 : N ≤ A + 524288 :=
      le_trans (le_roundHalfEven N s) (Nat.add_le_add_left hpow A)
    have e1 : 1000000 * N + 213696 * m = 4722366482869645213696 * m := by
      rw [hN]; ring
    have hqr : 15625 * (4 * m / 15625) + 4 * m % 15625 = 4 * m :=
      Nat.div_add_mod (4 * m) 15625
    have hr1 : 1 ≤ 4 * m % 15625 := by omega
    have hr2 : 4 * m % 15625 < 15625 := Nat.mod_lt _ (by norm_num)
    have hlow : 4 * m / 15625 * 18446744073709551616 ≤ A := by omega
    have hhigh : A < (4 * m / 15625 + 1) * 18446744073709551616 := by omega
    have hdiv : A / 18446744073709551616 = 4 * m / 15625 :=
      Nat.div_eq_of_lt_le hlow hhigh
    rw [hfb, hdiv]
    omega

/-! ## Calendar arithmetic

`current_time_bytes` calls `datetime.datetime.now()` and uses the broken-down
local time fields plus `isoweekday()`.  The weekday is a pure function of the
date; the following defs mirror CPythons `datetime` internals
(`_is_leap`, `_days_before_year`, `_days_before_month`, `toordinal`,
`isoweekday`), with day 1 = 0001-01-01 in the proleptic Gregorian calendar. -/

def isLeapYear (y : ℕ) : Bool :=
  y % 4 == 0 && (y % 100 != 0 || y % 400 == 0)

def daysBeforeYear (y : ℕ) : ℕ :=
  365 * (y - 1) + (y - 1) / 4 - (y - 1) / 100 + (y - 1) / 400

def daysBeforeMonth (y m : ℕ) : ℕ :=
  (match m with
   | 1 => 0 | 2 => 31 | 3 => 59 | 4 => 90 | 5 => 120 | 6 => 151
   | 7 => 181 | 8 => 212 | 9 => 243 | 10 => 273 | 11 => 304 | _ => 334)
  + (if 2 < m && isLeapYear y then 1 else 0)

def toOrdinal (y m d : ℕ) : ℕ :=
  daysBeforeYear y + daysBeforeMonth y m + d

/-- Models `datetime.date.isoweekday`: Monday = 1 .. Sunday = 7
(CPython computes `toordinal() % 7 or 7`). -/
def isoWeekday (y m d : ℕ) : ℕ :=
  if toOrdinal y m d % 7 = 0 then 7 else toOrdinal y m d % 7

/-- Broken-down local instant as produced by `datetime.datetime.now()`. -/
structure PyDateTime where
  year : ℕ
  month : ℕ
  day : ℕ
  hour : ℕ
  minute : ℕ
  second : ℕ
  microsecond : ℕ
deriving DecidableEq, Repr

/-- Models `CurrentTimeCharacteristic.current_time_bytes` (lines 288-305):
`dt.year.to_bytes(2, 'little')` followed by month, day, hour, minute,
second, `isoweekday()`, the fractional-second byte, and the fixed
adjustment-reason byte 1.  Each entry is wrapped in `dbus.Byte`; all entries
are already in 0..255 for a valid `datetime`, so the bytes are modelled as
their numeric values. -/
def currentTimeBytes (dt : PyDateTime) : List ℕ :=
  [dt.year % 256, dt.year / 256 % 256,
   dt.month, dt.day, dt.hour, dt.minute, dt.second,
   isoWeekday dt.year dt.month dt.day,
   fracByte dt.microsecond,
   1]

/-! ## Local Time Information payload

`local_time_information_bytes` (lines 349-360) computes
`time_zone_offset = timedelta(seconds=-time.timezone)` and
`dst_offset = timedelta(seconds=-time.altzone) - time_zone_offset`, divides
each by `timedelta(minutes=15)` (Python timedelta division is exact on these
magnitudes and `int` truncates toward zero, i.e. `Int.tdiv` by 900 seconds),
then emits `to_bytes(1, 'little', signed=True)` of the first quotient
(raises `OverflowError` outside -128..127, else yields the two's-complement
byte) and `dbus.Byte` of the second (raises outside 0..255). -/

def localTimeInformationBytes (timezone altzone : ℤ) : Except PyExc (List ℕ) :=
  if -128 ≤ Int.tdiv (-timezone) 900 ∧ Int.tdiv (-timezone) 900 ≤ 127 then
    if 0 ≤ Int.tdiv (-altzone - -timezone) 900 ∧
        Int.tdiv (-altzone - -timezone) 900 ≤ 255 then
      Except.ok [(Int.emod (Int.tdiv (-timezone) 900) 256).toNat,
                 (Int.tdiv (-altzone - -timezone) 900).toNat]
    else Except.error PyExc.overflowError
  else Except.error PyExc.overflowError

/-! ## GATT object tree

The fixed interface names of the source (lines 24-31). -/

def GATT_SERVICE_IFACE : String := "org.bluez.GattService1"

def GATT_CHRC_IFACE : String := "org.bluez.GattCharacteristic1"

def GATT_DESC_IFACE : String := "org.bluez.GattDescriptor1"

def GATT_MANAGER_IFACE : String := "org.bluez.GattManager1"

/-- A typed DBus property value as the property dictionaries carry them. -/
inductive PropValue where
  | str (s : String)
  | boolean (b : Bool)
  | objectPath (p : String)
  | objectPathList (ps : List String)
  | strList (ss : List String)
deriving DecidableEq, Repr

/-- A property dictionary: ordered mapping from property name to value. -/
abbrev Props := List (String × PropValue)

/-- Static construction data of a `Descriptor` (lines 213-224). -/
structure DescriptorNode where
  index : ℕ
  uuid : String
  flags : List String
deriving DecidableEq, Repr

/-- Static construction data of a `Characteristic` (lines 135-147). -/
structure CharacteristicNode where
  index : ℕ
  uuid : String
  flags : List String
  descriptors : List DescriptorNode
deriving DecidableEq, Repr

/-- Static construction data of a `Service` (lines 85-97). -/
structure ServiceNode where
  index : ℕ
  uuid : String
  primary : Bool
  characteristics : List CharacteristicNode
deriving DecidableEq, Repr

/-- The `Application` root (lines 54-62); its own path is `/`. -/
structure ApplicationNode where
  services : List ServiceNode
deriving DecidableEq, Repr

def PATH_BASE : String := "/org/bluez/example/service"

/-- `Service.__init__` line 92: `self.path = self.PATH_BASE + str(index)`. -/
def servicePath (s : ServiceNode) : String :=
  PATH_BASE ++ toString s.index

/-- `Characteristic.__init__` line 140:
`self.path = service.path + '/char' + str(index)`. -/
def characteristicPath (servicePathStr : String) (c : CharacteristicNode) : String :=
  servicePathStr ++ "/char" ++ toString c.index

/-- `Descriptor.__init__` line 218:
`self.path = characteristic.path + '/desc' + str(index)`. -/
def descriptorPath (chrcPathStr : String) (d : DescriptorNode) : String :=
  chrcPathStr ++ "/desc" ++ toString d.index

/-- `Descriptor.get_properties` (lines 226-233), inner dictionary. -/
def descriptorInterfaceProps (chrcPathStr : String) (d : DescriptorNode) : Props :=
  [("Characteristic", PropValue.objectPath chrcPathStr),
   ("UUID", PropValue.str d.uuid),
   ("Flags", PropValue.strList d.flags)]

def descriptorProperties (chrcPathStr : String) (d : DescriptorNode) :
    List (String × Props) :=
  [(GATT_DESC_IFACE, descriptorInterfaceProps chrcPathStr d)]

/-- `Characteristic.get_properties` (lines 149-159), inner dictionary. -/
def characteristicInterfaceProps (servicePathStr : String)
    (c : CharacteristicNode) : Props :=
  [("Service", PropValue.objectPath servicePathStr),
   ("UUID", PropValue.str c.uuid),
   ("Flags", PropValue.strList c.flags),
   ("Descriptors", PropValue.objectPathList
      (c.descriptors.map (descriptorPath (characteristicPath servicePathStr c))))]

def characteristicProperties (servicePathStr : String) (c : CharacteristicNode) :
    List (String × Props) :=
  [(GATT_CHRC_IFACE, characteristicInterfaceProps servicePathStr c)]

/-- `Service.get_properties` (lines 99-108), inner dictionary. -/
def serviceInterfaceProps (s : ServiceNode) : Props :=
  [("UUID", PropValue.str s.uuid),
   ("Primary", PropValue.boolean s.primary),
   ("Characteristics", PropValue.objectPathList
      (s.characteristics.map (characteristicPath (servicePath s))))]

def serviceProperties (s : ServiceNode) : List (String × Props) :=
  [(GATT_SERVICE_IFACE, serviceInterfaceProps s)]

/-- The entries a characteristic contributes to `GetManagedObjects`: its own
path and properties, then one entry per descriptor (lines 76-80). -/
def characteristicEntries (servicePathStr : String) (c : CharacteristicNode) :
    List (String × List (String × Props)) :=
  (characteristicPath servicePathStr c,
   characteristicProperties servicePathStr c) ::
    c.descriptors.map (fun d =>
      (descriptorPath (characteristicPath servicePathStr c) d,
       descriptorProperties (characteristicPath servicePathStr c) d))

/-- The entries a service contributes: its own path and properties, then its
characteristics and their descriptors (lines 73-80). -/
def serviceEntries (s : ServiceNode) : List (String × List (String × Props)) :=
  (servicePath s, serviceProperties s) ::
    (s.characteristics.map (characteristicEntries (servicePath s))).flatten

/-- Models `Application.GetManagedObjects` (lines 70-82): a full traversal of
the tree building the response mapping at call time. -/
def getManagedObjects (a : ApplicationNode) :
    List (String × List (String × Props)) :=
  (a.services.map serviceEntries).flatten

/-- The object paths of all Services, Characteristics and Descriptors of the
tree, in traversal order. -/
def characteristicPathsAll (servicePathStr : String) (c : CharacteristicNode) :
    List String :=
  characteristicPath servicePathStr c ::
    c.descriptors.map (descriptorPath (characteristicPath servicePathStr c))

def servicePathsAll (s : ServiceNode) : List String :=
  servicePath s ::
    (s.characteristics.map (characteristicPathsAll (servicePath s))).flatten

def allPaths (a : ApplicationNode) : List String :=
  (a.services.map servicePathsAll).flatten

/-- The tree the program constructs: `Application.__init__` adds one
`CurrentTimeService` at index 0 (line 62), which adds the Current Time
characteristic at index 0 and the Local Time Information characteristic at
index 1 (lines 266-269), neither with descriptors. -/
def currentTimeServiceNode : ServiceNode :=
  { index := 0, uuid := "1805", primary := true,
    characteristics :=
      [{ index := 0, uuid := "2a2B", flags := ["read", "notify"],
         descriptors := [] },
       { index := 1, uuid := "2a0f", flags := ["read"],
         descriptors := [] }] }

def ctsApplication : ApplicationNode :=
  { services := [currentTimeServiceNode] }

/-! ## GetAll (lines 128-132, 179-183, 241-245) -/

def serviceGetAll (s : ServiceNode) (iface : String) : Except PyExc Props :=
  if iface ≠ GATT_SERVICE_IFACE then Except.error (PyExc.dbusError DBusErrorKind.invalidArgs)
  else Except.ok (serviceInterfaceProps s)

def characteristicGetAll (servicePathStr : String) (c : CharacteristicNode)
    (iface : String) : Except PyExc Props :=
  if iface ≠ GATT_CHRC_IFACE then Except.error (PyExc.dbusError DBusErrorKind.invalidArgs)
  else Except.ok (characteristicInterfaceProps servicePathStr c)

def descriptorGetAll (chrcPathStr : String) (d : DescriptorNode)
    (iface : String) : Except PyExc Props :=
  if iface ≠ GATT_DESC_IFACE then Except.error (PyExc.dbusError DBusErrorKind.invalidArgs)
  else Except.ok (descriptorInterfaceProps chrcPathStr d)

/-! ## Default RPC methods and inheritance

`Characteristic` defines default `ReadValue`, `WriteValue`, `StartNotify`
and `StopNotify` that log and raise `NotSupportedException` (lines 185-205);
`Descriptor` defines default `ReadValue` and `WriteValue` doing the same
(lines 247-257).  `CurrentTimeCharacteristic` overrides `ReadValue`,
`StartNotify` and `StopNotify` but not `WriteValue`;
`LocalTimeInformationCharacteristic` overrides only `ReadValue`. -/

def characteristicDefaultReadValue (options : List (String × String)) :
    Except PyExc (List ℕ) :=
  Except.error (PyExc.dbusError DBusErrorKind.notSupported)

def characteristicDefaultWriteValue (value : List ℕ)
    (options : List (String × String)) : Except PyExc Unit :=
  Except.error (PyExc.dbusError DBusErrorKind.notSupported)

def characteristicDefaultStartNotify : Except PyExc Unit :=
  Except.error (PyExc.dbusError DBusErrorKind.notSupported)

def characteristicDefaultStopNotify : Except PyExc Unit :=
  Except.error (PyExc.dbusError DBusErrorKind.notSupported)

def descriptorDefaultReadValue (options : List (String × String)) :
    Except PyExc (List ℕ) :=
  Except.error (PyExc.dbusError DBusErrorKind.notSupported)

def descriptorDefaultWriteValue (value : List ℕ)
    (options : List (String × String)) : Except PyExc Unit :=
  Except.error (PyExc.dbusError DBusErrorKind.notSupported)

/-- `CurrentTimeCharacteristic` does not override `WriteValue`: the call
dispatches to the inherited default. -/
def currentTimeWriteValue : List ℕ → List (String × String) → Except PyExc Unit :=
  characteristicDefaultWriteValue

def localTimeInformationWriteValue :
    List ℕ → List (String × String) → Except PyExc Unit :=
  characteristicDefaultWriteValue

def localTimeInformationStartNotify : Except PyExc Unit :=
  characteristicDefaultStartNotify

def localTimeInformationStopNotify : Except PyExc Unit :=
  characteristicDefaultStopNotify

/-! ## The notifying state machine

`CurrentTimeCharacteristic.__init__` sets `self.notifying = False`
(line 281); `StartNotify` / `StopNotify` (lines 326-336) are the only
assignments to the flag in the whole program.  Each operation is modelled as
(new flag value, warnings logged). -/

def initialNotifying : Bool := false

def ctStartNotify (notifying : Bool) : Bool × List String :=
  if notifying then (notifying, ["Already notifying, nothing to do"])
  else (true, [])

def ctStopNotify (notifying : Bool) : Bool × List String :=
  if !notifying then (notifying, ["Not notifying, nothing to do"])
  else (false, [])

/-- The operations dispatchable on the Current Time characteristic. -/
inductive CTCall where
  | readValue (options : List (String × String))
  | notifyCurrentTime
  | notifyTime
  | getAll (iface : String)
  | startNotify
  | stopNotify
deriving DecidableEq

/-- The `notifying` flag after each operation.  `ReadValue`,
`notify_current_time`, `notify_time` and `GetAll` read the flag at most but
never assign it (lines 307-324, 179-183); only `StartNotify` and
`StopNotify` assign it. -/
def ctCallNotifying : CTCall → Bool → Bool
  | CTCall.readValue _, b => b
  | CTCall.notifyCurrentTime, b => b
  | CTCall.notifyTime, b => b
  | CTCall.getAll _, b => b
  | CTCall.startNotify, b => (ctStartNotify b).1
  | CTCall.stopNotify, b => (ctStopNotify b).1

/-! ## Overridden ReadValue with options (lines 321-324, 362-365)

Both overrides first compute the payload, then format a log line indexing
`options['device']`; a missing key raises `KeyError` after the payload was
computed.  The event list records the observable order. -/

inductive ReadEvent where
  | payloadComputed (value : List ℕ)
  | suppliedTo (device : String)
deriving DecidableEq, Repr

/-- Python dictionary lookup `options['device']` modelled on an ordered
association list. -/
def lookupOpt (options : List (String × String)) (k : String) : Option String :=
  match options with
  | [] => none
  | (key, v) :: rest => if key = k then some v else lookupOpt rest k

/-- Models `CurrentTimeCharacteristic.ReadValue` (lines 321-324). -/
def currentTimeReadValue (dt : PyDateTime) (options : List (String × String)) :
    List ReadEvent × Except PyExc (List ℕ) :=
  match lookupOpt options "device" with
  | none => ([ReadEvent.payloadComputed (currentTimeBytes dt)],
             Except.error (PyExc.keyError "device"))
  | some dev => ([ReadEvent.payloadComputed (currentTimeBytes dt),
                  ReadEvent.suppliedTo dev],
                 Except.ok (currentTimeBytes dt))

/-- Models `LocalTimeInformationCharacteristic.ReadValue` (lines 362-365). -/
def localTimeInformationReadValue (timezone altzone : ℤ)
    (options : List (String × String)) :
    List ReadEvent × Except PyExc (List ℕ) :=
  match localTimeInformationBytes timezone altzone with
  | Except.error e => ([], Except.error e)
  | Except.ok v =>
    match lookupOpt options "device" with
    | none => ([ReadEvent.payloadComputed v],
               Except.error (PyExc.keyError "device"))
    | some dev => ([ReadEvent.payloadComputed v, ReadEvent.suppliedTo dev],
                   Except.ok v)

/-! ## Server startup (lines 368-415)

`Server.find_adapter` scans the object manager's objects for one exposing
the GATT manager interface.  When none is found, `Server.__init__` logs and
returns early: `self.mainloop` is never assigned, and the unconditional
`Server(args.notify_period).run()` in the main block (line 433) then raises
`AttributeError` when `run` reads `self.mainloop` (line 395). -/

def findAdapter : List (String × List String) → Option String
  | [] => none
  | (o, ifaces) :: rest =>
    if GATT_MANAGER_IFACE ∈ ifaces then some o else findAdapter rest

/-- The attributes `Server.__init__` may leave set: `mainloop` is assigned
only after an adapter was found. -/
structure ServerState where
  mainloop : Option Unit
deriving DecidableEq, Repr

def serverInit (objects : List (String × List String)) : ServerState :=
  match findAdapter objects with
  | none => { mainloop := none }
  | some _ => { mainloop := some () }

/-- `Server.run` (lines 394-395) reads `self.mainloop`; on a half-initialised
server this raises `AttributeError`, otherwise the event loop is entered. -/
def serverRun (s : ServerState) : Except PyExc Unit :=
  match s.mainloop with
  | none => Except.error (PyExc.attributeError "mainloop")
  | some _ => Except.ok ()

/-- The main block, line 433: `Server(args.notify_period).run()`. -/
def serverMain (objects : List (String × List String)) : Except PyExc Unit :=
  serverRun (serverInit objects)

/-! ## Claims -/

/-- C1: for the local instant 2024-03-15T14:30:45.500000 (a Friday), the
Current Time payload is exactly the 10 bytes
0xE8, 0x07, 3, 15, 14, 30, 45, 5, 128, 1 (year 2024 little-endian, month,
day, hour, minute, second, ISO weekday Friday = 5, fractional byte 128,
adjustment reason 1), and `ReadValue` returns them. -/
theorem claim_C1_current_time_payload :
    currentTimeBytes ⟨2024, 3, 15, 14, 30, 45, 500000⟩ =
      [0xE8, 0x07, 3, 15, 14, 30, 45, 5, 128, 1] ∧
    (currentTimeReadValue ⟨2024, 3, 15, 14, 30, 45, 500000⟩
        [("device", "/org/bluez/hci0/dev_AA")]).2 =
      Except.ok [0xE8, 0x07, 3, 15, 14, 30, 45, 5, 128, 1] ∧
    (currentTimeBytes ⟨2024, 3, 15, 14, 30, 45, 500000⟩).length = 10 := by
  refine ⟨by decide, by rfl, by decide⟩

/-- C2: for every local instant with microsecond value below 10 ^ 6, byte 9
of the Current Time payload (index 8) equals
floor(microseconds / 1000000 * 256) exactly, and lies in 0..255, even though
the code computes it in binary floating point. -/
theorem claim_C2_fractional_byte (dt : PyDateTime)
    (hm : dt.microsecond < 1000000) :
    (currentTimeBytes dt).getD 8 0 = 256 * dt.microsecond / 1000000 ∧
    (currentTimeBytes dt).getD 8 0 ≤ 255 := by
  have h8 : (currentTimeBytes dt).getD 8 0 = fracByte dt.microsecond := rfl
  rw [h8, fracByte_eq dt.microsecond hm]
  constructor
  · rfl
  · omega

theorem claim_C2_fractional_byte_witness :
    (currentTimeBytes ⟨2024, 3, 15, 14, 30, 45, 500000⟩).getD 8 0 =
      256 * 500000 / 1000000 ∧
    (currentTimeBytes ⟨2024, 3, 15, 14, 30, 45, 500000⟩).getD 8 0 ≤ 255 :=
  claim_C2_fractional_byte ⟨2024, 3, 15, 14, 30, 45, 500000⟩ (by decide)

/-- C3: `local_time_information_bytes` yields exactly 2 bytes, byte 1 the
two's-complement encoding of the base UTC offset (-timezone seconds) in
15-minute units, byte 2 the DST offset derived as total current offset
(-altzone) minus base offset, in 15-minute units; for a zone at UTC+2:00
with no DST the result is [8, 0], with +1h DST it is [8, 4]. -/
theorem claim_C3_local_time_information :
    (∀ timezone altzone : ℤ,
      -128 ≤ Int.tdiv (-timezone) 900 →
      Int.tdiv (-timezone) 900 ≤ 127 →
      0 ≤ Int.tdiv (-altzone - -timezone) 900 →
      Int.tdiv (-altzone - -timezone) 900 ≤ 255 →
      localTimeInformationBytes timezone altzone =
        Except.ok [(Int.emod (Int.tdiv (-timezone) 900) 256).toNat,
                   (Int.tdiv (-altzone - -timezone) 900).toNat]) ∧
    localTimeInformationBytes (-7200) (-7200) = Except.ok [8, 0] ∧
    localTimeInformationBytes (-7200) (-10800) = Except.ok [8, 4] := by
  refine ⟨?_, by rfl, by rfl⟩
  intro timezone altzone h1 h2 h3 h4
  rw [localTimeInformationBytes, if_pos ⟨h1, h2⟩, if_pos ⟨h3, h4⟩]

theorem claim_C3_local_time_information_witness :
    localTimeInformationBytes (-7200) (-10800) =
      Except.ok [(Int.emod (Int.tdiv (-(-7200 : ℤ)) 900) 256).toNat,
                 (Int.tdiv (-(-10800 : ℤ) - -(-7200 : ℤ)) 900).toNat] :=
  claim_C3_local_time_information.1 (-7200) (-10800)
    (by decide) (by decide) (by decide) (by decide)

/-- C4: the notifying flag starts off; StartNotify always leaves it on and
StopNotify always leaves it off, each idempotent with a warning as the only
observable effect when already in the target state; no other operation
changes the flag. -/
theorem claim_C4_notifying_state_machine :
    initialNotifying = false ∧
    ctStartNotify false = (true, []) ∧
    ctStartNotify true = (true, ["Already notifying, nothing to do"]) ∧
    ctStopNotify true = (false, []) ∧
    ctStopNotify false = (false, ["Not notifying, nothing to do"]) ∧
    (∀ options b, ctCallNotifying (CTCall.readValue options) b = b) ∧
    (∀ b, ctCallNotifying CTCall.notifyCurrentTime b = b) ∧
    (∀ b, ctCallNotifying CTCall.notifyTime b = b) ∧
    (∀ iface b, ctCallNotifying (CTCall.getAll iface) b = b) :=
  ⟨rfl, rfl, rfl, rfl, rfl, fun _ _ => rfl, fun _ => rfl, fun _ => rfl,
   fun _ _ => rfl⟩

lemma characteristicEntries_fst (sp : String) (c : CharacteristicNode) :
    (characteristicEntries sp c).map Prod.fst = characteristicPathsAll sp c := by
  simp [characteristicEntries, characteristicPathsAll, List.map_map,
        Function.comp_def]

lemma serviceEntries_fst (s : ServiceNode) :
    (serviceEntries s).map Prod.fst = servicePathsAll s := by
  simp [serviceEntries, servicePathsAll, List.map_flatten, List.map_map,
        Function.comp_def, characteristicEntries_fst]

/-- C5: for every tree the key list of `GetManagedObjects` is exactly the
traversal of all Service, Characteristic and Descriptor paths (the mapping
is computed by that full traversal at call time), and on the constructed
tree every path appears exactly once. -/
theorem claim_C5_get_managed_objects :
    (∀ a : ApplicationNode, (getManagedObjects a).map Prod.fst = allPaths a) ∧
    ((getManagedObjects ctsApplication).map Prod.fst).Nodup := by
  have hkeys : ∀ a : ApplicationNode,
      (getManagedObjects a).map Prod.fst = allPaths a := by
    intro a
    simp [getManagedObjects, allPaths, List.map_flatten, List.map_map,
          Function.comp_def, serviceEntries_fst]
  refine ⟨hkeys, ?_⟩
  rw [hkeys]
  decide

/-- C6: for each node kind, `GetAll` fails with `InvalidArgs` exactly when
the queried interface differs from the node's declared interface, and
returns the node's property mapping otherwise. -/
theorem claim_C6_get_all :
    (∀ (s : ServiceNode) (iface : String),
      (serviceGetAll s iface =
          Except.error (PyExc.dbusError DBusErrorKind.invalidArgs) ↔
        iface ≠ GATT_SERVICE_IFACE) ∧
      (iface = GATT_SERVICE_IFACE →
        serviceGetAll s iface = Except.ok (serviceInterfaceProps s))) ∧
    (∀ (sp : String) (c : CharacteristicNode) (iface : String),
      (characteristicGetAll sp c iface =
          Except.error (PyExc.dbusError DBusErrorKind.invalidArgs) ↔
        iface ≠ GATT_CHRC_IFACE) ∧
      (iface = GATT_CHRC_IFACE →
        characteristicGetAll sp c iface =
          Except.ok (characteristicInterfaceProps sp c))) ∧
    (∀ (cp : String) (d : DescriptorNode) (iface : String),
      (descriptorGetAll cp d iface =
          Except.error (PyExc.dbusError DBusErrorKind.invalidArgs) ↔
        iface ≠ GATT_DESC_IFACE) ∧
      (iface = GATT_DESC_IFACE →
        descriptorGetAll cp d iface =
          Except.ok (descriptorInterfaceProps cp d))) := by
  refine ⟨fun s iface => ?_, fun sp c iface => ?_, fun cp d iface => ?_⟩
  · by_cases h : iface = GATT_SERVICE_IFACE <;> simp [serviceGetAll, h]
  · by_cases h : iface = GATT_CHRC_IFACE <;> simp [characteristicGetAll, h]
  · by_cases h : iface = GATT_DESC_IFACE <;> simp [descriptorGetAll, h]

theorem claim_C6_get_all_witness :
    serviceGetAll currentTimeServiceNode GATT_SERVICE_IFACE =
      Except.ok (serviceInterfaceProps currentTimeServiceNode) :=
  (claim_C6_get_all.1 currentTimeServiceNode GATT_SERVICE_IFACE).2 rfl

/-- C7: every ReadValue / WriteValue / StartNotify / StopNotify that the
concrete characteristic or descriptor does not override fails with
`NotSupported` and no other error kind. -/
theorem claim_C7_default_not_supported :
    (∀ options, characteristicDefaultReadValue options =
      Except.error (PyExc.dbusError DBusErrorKind.notSupported)) ∧
    (∀ value options, characteristicDefaultWriteValue value options =
      Except.error (PyExc.dbusError DBusErrorKind.notSupported)) ∧
    characteristicDefaultStartNotify =
      Except.error (PyExc.dbusError DBusErrorKind.notSupported) ∧
    characteristicDefaultStopNotify =
      Except.error (PyExc.dbusError DBusErrorKind.notSupported) ∧
    (∀ options, descriptorDefaultReadValue options =
      Except.error (PyExc.dbusError DBusErrorKind.notSupported)) ∧
    (∀ value options, descriptorDefaultWriteValue value options =
      Except.error (PyExc.dbusError DBusErrorKind.notSupported)) ∧
    (∀ value options, currentTimeWriteValue value options =
      Except.error (PyExc.dbusError DBusErrorKind.notSupported)) ∧
    (∀ value options, localTimeInformationWriteValue value options =
      Except.error (PyExc.dbusError DBusErrorKind.notSupported)) ∧
    localTimeInformationStartNotify =
      Except.error (PyExc.dbusError DBusErrorKind.notSupported) ∧
    localTimeInformationStopNotify =
      Except.error (PyExc.dbusError DBusErrorKind.notSupported) :=
  ⟨fun _ => rfl, fun _ _ => rfl, rfl, rfl, fun _ => rfl, fun _ _ => rfl,
   fun _ _ => rfl, fun _ _ => rfl, rfl, rfl⟩

/-- C8: evaluation of the startup path at the failing input (no
GATT-manager-capable object on the bus).  `find_adapter` yields nothing,
`Server.__init__` returns early with `self.mainloop` unassigned, and the
unconditional `Server(args.notify_period).run()` then raises
`AttributeError`: the process crashes, the event loop is never entered. -/
theorem claim_C8_no_adapter_attribute_error :
    findAdapter [] = none ∧
    serverInit [] = { mainloop := none } ∧
    serverMain [] = Except.error (PyExc.attributeError "mainloop") :=
  ⟨rfl, rfl, rfl⟩

/-- C9: in the constructed tree the object paths (root, service,
characteristics) are pairwise distinct, and each node's path is the stated
deterministic function of the parent's path and the construction index
(`get_path` is a pure function of those, hence stable across queries). -/
theorem claim_C9_paths_distinct :
    ("/" :: allPaths ctsApplication).Nodup ∧
    (∀ s : ServiceNode, servicePath s = PATH_BASE ++ toString s.index) ∧
    (∀ (sp : String) (c : CharacteristicNode),
      characteristicPath sp c = sp ++ "/char" ++ toString c.index) ∧
    (∀ (cp : String) (d : DescriptorNode),
      descriptorPath cp d = cp ++ "/desc" ++ toString d.index) :=
  ⟨by decide, fun _ => rfl, fun _ _ => rfl, fun _ _ => rfl⟩

/-- C10: both overridden ReadValue operations require `options` to contain
the key `device`; when it is absent the call raises `KeyError` after the
payload bytes were computed, and `KeyError` is none of the five declared
DBus error kinds. -/
theorem claim_C10_missing_device_key (dt : PyDateTime)
    (options : List (String × String))
    (hdev : lookupOpt options "device" = none) :
    currentTimeReadValue dt options =
      ([ReadEvent.payloadComputed (currentTimeBytes dt)],
       Except.error (PyExc.keyError "device")) ∧
    (∀ (timezone altzone : ℤ) (v : List ℕ),
      localTimeInformationBytes timezone altzone = Except.ok v →
      localTimeInformationReadValue timezone altzone options =
        ([ReadEvent.payloadComputed v],
         Except.error (PyExc.keyError "device"))) ∧
    (∀ kind : DBusErrorKind,
      PyExc.keyError "device" ≠ PyExc.dbusError kind) := by
  refine ⟨?_, ?_, ?_⟩
  · rw [currentTimeReadValue, hdev]
  · intro timezone altzone v hv
    rw [localTimeInformationReadValue, hv, hdev]
  · intro kind h
    exact PyExc.noConfusion h

theorem claim_C10_missing_device_key_witness :
    currentTimeReadValue ⟨2024, 3, 15, 14, 30, 45, 500000⟩ [] =
      ([ReadEvent.payloadComputed
          (currentTimeBytes ⟨2024, 3, 15, 14, 30, 45, 500000⟩)],
       Except.error (PyExc.keyError "device")) ∧
    (∀ (timezone altzone : ℤ) (v : List ℕ),
      localTimeInformationBytes timezone altzone = Except.ok v →
      localTimeInformationReadValue timezone altzone [] =
        ([ReadEvent.payloadComputed v],
         Except.error (PyExc.keyError "device"))) ∧
    (∀ kind : DBusErrorKind,
      PyExc.keyError "device" ≠ PyExc.dbusError kind) :=
  claim_C10_missing_device_key ⟨2024, 3, 15, 14, 30, 45, 500000⟩ [] rfl
